import Mathlib

/-!
# RemoteLibrary (musikcore/library/RemoteLibrary.cpp)

A shallow embedding of `RemoteLibrary`: the pending queue and its worker, the
registry of queries in flight, completion routing, the connection-state
callbacks and the remote track locator.

Conventions of the embedding.

* Objects shared through `shared_ptr` are values; a null pointer is `none`.
* Every function that runs under `queueMutex` is one atomic transition of the
  state `RemoteLibrary`. A `wait` on a condition variable re-evaluates its loop
  condition after other threads have taken transitions; `notify_all` has no
  state of its own (a waiter may wake at any time), so it is not recorded.
* What the collaborators that are not part of this file return (the transport,
  the event pump, the preferences, the track) is data carried by the state or
  by the arguments.
-/

namespace Musik

/-! ## Data model -/

/-- Modelled from the spec: the values of `IQuery::GetStatus()` (the
enumeration is declared outside this file): `Idle | Running | Finished |
Failed`. -/
inductive Status
  | Idle
  | Running
  | Finished
  | Failed
  deriving DecidableEq, Repr

/-- A query object. `ptr` is the identity of the object (what `shared_ptr`
comparison looks at), `serializable` says whether
`dynamic_pointer_cast<ISerializableQuery>` succeeds. The status of the object
is mutable and lives in `RemoteLibrary.status`. -/
structure Query where
  ptr : Nat
  id : Int
  name : String
  serializable : Bool
  deriving DecidableEq, Repr

/-- The struct `QueryContext`: the (nullable) serializable query and the
(possibly empty) callback, named by a number. -/
structure QueryContext where
  query : Option Query
  callback : Option Nat
  deriving DecidableEq, Repr

/-- A `QueryContextPtr` is a nullable shared pointer. -/
abbrev QueryContextPtr := Option QueryContext

/-- Modelled from the spec: the values of `ILibrary::ConnectionState` (the
enumeration is declared outside this file): `Disconnected, Connecting,
Connected, AuthenticationFailure`. -/
inductive ConnectionState
  | Disconnected
  | Connecting
  | Connected
  | AuthenticationFailure
  deriving DecidableEq, Repr

/-- The raw transport states, the keys of `kConnectionStateMap`. -/
inductive State
  | Disconnected
  | Disconnecting
  | Connecting
  | Connected
  deriving DecidableEq, Repr

/-- Modelled from the spec: the values of `WebSocketClient::ConnectionError`
(the enumeration is declared outside this file): `None, InvalidPassword,
IncompatibleVersion, Other`. -/
inductive ConnectionError
  | None
  | InvalidPassword
  | IncompatibleVersion
  | Other
  deriving DecidableEq, Repr

def MESSAGE_QUERY_COMPLETED : Nat := 5000

def MESSAGE_RECONNECT_SOCKET : Nat := 5001

def MESSAGE_UPDATE_CONNECTION_STATE : Nat := 5002

/-- The messages this file creates for itself. `QueryCompleted` is the class
`QueryCompletedMessage`; `ReconnectSocket` is
`Message::Create(this, MESSAGE_RECONNECT_SOCKET)`; `UpdateConnectionState` is
`Message::Create(this, MESSAGE_UPDATE_CONNECTION_STATE, (int) state)`, whose
integer payload `ProcessMessage` casts back to the enumeration, so the payload
is kept as the enumeration value. -/
inductive Message
  | QueryCompleted (target : Nat) (context : QueryContext)
  | ReconnectSocket (target : Nat)
  | UpdateConnectionState (target : Nat) (state : ConnectionState)
  deriving DecidableEq, Repr

def Message.Type : Message → Nat
  | .QueryCompleted _ _ => MESSAGE_QUERY_COMPLETED
  | .ReconnectSocket _ => MESSAGE_RECONNECT_SOCKET
  | .UpdateConnectionState _ _ => MESSAGE_UPDATE_CONNECTION_STATE

def Message.Target : Message → Nat
  | .QueryCompleted t _ => t
  | .ReconnectSocket t => t
  | .UpdateConnectionState t _ => t

/-! ## The event pump (`IMessageQueue`) -/

/-- Modelled from the spec: an event held by the event pump (`IMessageQueue`,
not part of this file): the message, the delay it was posted with in
milliseconds, and a serial number standing for the identity of the posted
object. -/
structure Posted where
  message : Message
  delayMs : Nat
  serial : Nat
  deriving DecidableEq, Repr

/-- Modelled from the spec: the event pump (`IMessageQueue`, not part of this
file) with the contract `Post(event, [delayMs])`, `Remove(target, eventKind)`,
`Register(target)`, `Unregister(target)`. `addr` is the identity of the queue
object, `posted` counts the calls of `Post`. -/
structure MessageQueue where
  addr : Nat
  targets : List Nat
  pending : List Posted
  posted : Nat
  deriving DecidableEq, Repr

/-- Modelled from the spec: `Post(event, delayMs)` of the absent
`IMessageQueue` appends the event to the pending events. -/
def MessageQueue.Post (q : MessageQueue) (m : Message) (delayMs : Nat) : MessageQueue :=
  { q with pending := q.pending ++ [⟨m, delayMs, q.posted⟩], posted := q.posted + 1 }

/-- Modelled from the spec: `Remove(target, eventKind)` of the absent
`IMessageQueue` drops every pending event of that kind for that target. -/
def MessageQueue.Remove (q : MessageQueue) (target : Nat) (type : Nat) : MessageQueue :=
  { q with pending :=
      q.pending.filter (fun p => !(p.message.Target == target && p.message.Type == type)) }

/-- Modelled from the spec: `Register(target)` of the absent `IMessageQueue`. -/
def MessageQueue.Register (q : MessageQueue) (target : Nat) : MessageQueue :=
  { q with targets := if target ∈ q.targets then q.targets else q.targets ++ [target] }

/-- Modelled from the spec: `Unregister(target)` of the absent `IMessageQueue`. -/
def MessageQueue.Unregister (q : MessageQueue) (target : Nat) : MessageQueue :=
  { q with targets := q.targets.filter (fun t => t != target) }

/-- The pending reconnect-timer events of one target. -/
def MessageQueue.pendingReconnects (q : MessageQueue) (target : Nat) : List Posted :=
  q.pending.filter
    (fun p => p.message.Target == target && p.message.Type == MESSAGE_RECONNECT_SOCKET)

/-! ## The registry `queriesInFlight` (a `std::map<std::string, QueryContextPtr>`) -/

abbrev Registry := List (String × QueryContextPtr)

/-- The value stored under a key, if the key is present (`std::map::find`). -/
def Registry.find (m : Registry) (k : String) : Option QueryContextPtr :=
  (List.find? (fun kv => kv.1 == k) m).map (fun kv => kv.2)

/-- Insertion of a fresh key at its place in key order. -/
def Registry.insert : Registry → String → QueryContextPtr → Registry
  | [], k, c => [(k, c)]
  | kv :: rest, k, c =>
    if k < kv.1 then (k, c) :: kv :: rest else kv :: Registry.insert rest k c

/-- The expression `m[k]` read as a value: the stored pointer, and the map
afterwards; an absent key is inserted with a null pointer. -/
def Registry.index (m : Registry) (k : String) : QueryContextPtr × Registry :=
  match m.find k with
  | some v => (v, m)
  | none => (none, m.insert k none)

/-- The statement `m[k] = c`. -/
def Registry.assign (m : Registry) (k : String) (c : QueryContextPtr) : Registry :=
  match m.find k with
  | some _ => m.map (fun kv => if kv.1 == k then (kv.1, c) else kv)
  | none => m.insert k c

/-- The call `m.erase(k)`. -/
def Registry.erase (m : Registry) (k : String) : Registry :=
  m.filter (fun kv => kv.1 != k)

/-! ## The transport (`WebSocketClient`) and the preferences -/

/-- A request the library makes of the transport's connection. -/
inductive ConnectionRequest
  | Connect (host : String) (port : Int) (password : String)
  | Disconnect
  deriving DecidableEq, Repr

/-- Modelled from the spec: the transport (`WebSocketClient`, not part of this
file) as seen through the calls this file makes: `ConnectionState()`,
`LastConnectionError()`, `EnqueueQuery(request) -> CorrelationToken|""`,
`Connect`, `Disconnect`. `messageIds` are the tokens `EnqueueQuery` is going to
return, in call order (the empty token once they run out); `sent` records the
queries handed to `EnqueueQuery`, oldest first; `requests` records the
`Connect` and `Disconnect` calls. -/
structure WebSocketClient where
  state : State
  lastConnectionError : ConnectionError
  messageIds : List String
  sent : List Query
  requests : List ConnectionRequest
  deriving DecidableEq, Repr

/-- Modelled from the spec: `EnqueueQuery(request)` of the absent transport
returns the next token and records the request. -/
def WebSocketClient.EnqueueQuery (w : WebSocketClient) (query : Query) : String × WebSocketClient :=
  (w.messageIds.headD "", { w with messageIds := w.messageIds.tail, sent := w.sent ++ [query] })

/-- Modelled from the spec: `Connect(host, port, credential)` of the absent
transport, recorded. -/
def WebSocketClient.Connect (w : WebSocketClient) (host : String) (port : Int)
    (password : String) : WebSocketClient :=
  { w with requests := w.requests ++ [.Connect host port password] }

/-- Modelled from the spec: `Disconnect()` of the absent transport, recorded. -/
def WebSocketClient.Disconnect (w : WebSocketClient) : WebSocketClient :=
  { w with requests := w.requests ++ [.Disconnect] }

/-- Modelled from the spec: the settings read through
`Preferences::ForComponent(Settings)` (not part of this file): each key is
either stored or absent, and `GetString`, `GetInt`, `GetBool` give the stored
value or else the default passed to them. -/
structure Preferences where
  RemoteLibraryHostname : Option String
  RemoteLibraryWssPort : Option Int
  RemoteLibraryHttpPort : Option Int
  RemoteLibraryPassword : Option String
  RemoteLibraryViewed : Option Bool
  deriving DecidableEq, Repr

/-- The conversion `(short) x` of an `int`: reduction to 16 bits, two's
complement. -/
def toShort (x : Int) : Int :=
  (x + 32768) % 65536 - 32768

/-! ## The library object -/

/-- What the library emits towards its listeners, in order. -/
inductive Signal
  | QueryCompleted (query : Option Query)
  | Callback (callback : Nat) (query : Option Query)
  | ConnectionStateChanged (state : ConnectionState)
  deriving DecidableEq, Repr

/-- The members of `RemoteLibrary` (`self` is the address `this`, `thread`
says whether `this->thread` is non-null), followed by the surroundings the
code reads and writes: the preferences, the status of the query objects
(`Idle` unless listed) and the signals emitted so far. -/
structure RemoteLibrary where
  self : Nat
  name : String
  id : Int
  identifier : String
  exit : Bool
  thread : Bool
  queryQueue : List QueryContext
  queriesInFlight : Registry
  messageQueue : Option MessageQueue
  connectionState : ConnectionState
  wsc : WebSocketClient
  prefs : Preferences
  status : List (Nat × Status)
  signals : List Signal
  deriving DecidableEq, Repr

/-- The collaborators `Enqueue` consults that are not part of this file:
`QueryRegistry::IsLocalOnlyQuery`, the value returned by `Enqueue` of the
default local library, and the flag `ILibrary::QuerySynchronous`. -/
structure Externals where
  IsLocalOnlyQuery : String → Bool
  DefaultLocalLibraryEnqueue : Query → Nat → Option Nat → Int
  QuerySynchronous : Nat

/-- The call `query->GetStatus()`. -/
def RemoteLibrary.GetStatus (s : RemoteLibrary) (query : Query) : Status :=
  ((List.find? (fun e => e.1 == query.ptr) s.status).map (fun e => e.2)).getD Status.Idle

def RemoteLibrary.ReloadConnectionFromPreferences (s : RemoteLibrary) : RemoteLibrary :=
  let host := s.prefs.RemoteLibraryHostname.getD "127.0.0.1"
  let port := toShort (s.prefs.RemoteLibraryWssPort.getD 7905)
  let password := s.prefs.RemoteLibraryPassword.getD ""
  { s with wsc := s.wsc.Connect host port password }

/-- The constructor: no event pump, `exit` false, the worker thread created,
the connection loaded from the preferences. `self` is the address of the new
object, `wsc` and `prefs` the transport and the settings it starts with.
`connectionState` is initialised in the class declaration, outside this file;
the spec gives `Disconnected` as the initial state. -/
def RemoteLibrary.Create (self : Nat) (name : String) (id : Int) (wsc : WebSocketClient)
    (prefs : Preferences) : RemoteLibrary :=
  RemoteLibrary.ReloadConnectionFromPreferences
    { self := self, name := name, id := id, identifier := toString id, exit := false,
      thread := true, queryQueue := [], queriesInFlight := [], messageQueue := none,
      connectionState := ConnectionState.Disconnected, wsc := wsc, prefs := prefs,
      status := [], signals := [] }

def RemoteLibrary.Close (s : RemoteLibrary) : RemoteLibrary :=
  let s := { s with wsc := s.wsc.Disconnect }
  if s.thread then
    { s with thread := false, queryQueue := [], exit := true }
  else s

def RemoteLibrary.IsConfigured (s : RemoteLibrary) : Bool :=
  s.prefs.RemoteLibraryViewed.getD false

def isQueryDone (s : RemoteLibrary) (query : Query) : Bool :=
  match s.GetStatus query with
  | Status.Idle => false
  | Status.Running => false
  | _ => true

/-- The loop of `IsQueryInFlight`. Pointers are compared by identity. An entry
holding a null pointer, which the code would dereference, compares unequal; no
such entry outlives the locked block of `OnQueryCompleted`. -/
def RemoteLibrary.IsQueryInFlight (s : RemoteLibrary) (query : Query) : Bool :=
  s.queriesInFlight.any (fun kv =>
    match kv.2 with
    | some context => context.query.map (fun q => q.ptr) == some query.ptr
    | none => false)

def RemoteLibrary.RunQueryOnWebSocketClient (s : RemoteLibrary) (context : QueryContext) :
    RemoteLibrary :=
  match context.query with
  | some query =>
    let r := s.wsc.EnqueueQuery query
    let messageId := r.1
    let s := { s with wsc := r.2 }
    if messageId.length ≠ 0 then
      { s with queriesInFlight := s.queriesInFlight.assign messageId (some context) }
    else s
  | none => s

def RemoteLibrary.RunQuery (s : RemoteLibrary) (context : QueryContext) : RemoteLibrary :=
  s.RunQueryOnWebSocketClient context

/-- The wait loop of a synchronous `Enqueue`. Each element of `others` is what
the other threads do to the library during one `syncQueryCondition.wait`
(`none` when one of them fails); the loop condition is evaluated again after
each. The result is `none` when the loop still waits after the last of them. -/
def RemoteLibrary.syncWait (query : Query) :
    List (RemoteLibrary → Option RemoteLibrary) → RemoteLibrary → Option RemoteLibrary
  | [], s =>
    if !s.exit && s.IsQueryInFlight query && !isQueryDone s query then none else some s
  | f :: rest, s =>
    if !s.exit && s.IsQueryInFlight query && !isQueryDone s query then
      match f s with
      | some s' => RemoteLibrary.syncWait query rest s'
      | none => none
    else some s

/-- The method `Enqueue`: the value returned and the library afterwards, or
`none` when a synchronous call does not return within `others`. -/
def RemoteLibrary.Enqueue (x : Externals) (others : List (RemoteLibrary → Option RemoteLibrary))
    (s : RemoteLibrary) (query : Query) (options : Nat) (callback : Option Nat) :
    Option (Int × RemoteLibrary) :=
  if x.IsLocalOnlyQuery query.name then
    some (x.DefaultLocalLibraryEnqueue query options callback, s)
  else if query.serializable then
    let context : QueryContext := { query := some query, callback := callback }
    if options &&& x.QuerySynchronous ≠ 0 then
      (RemoteLibrary.syncWait query others (s.RunQuery context)).map (fun s' => (query.id, s'))
    else if s.exit then some (-1, s)
    else some (query.id, { s with queryQueue := s.queryQueue ++ [context] })
  else some (-1, s)

/-- The method `GetNextQuery`: `none` while the worker waits on
`queueCondition`, otherwise the pointer returned and the library afterwards. -/
def RemoteLibrary.GetNextQuery (s : RemoteLibrary) : Option (QueryContextPtr × RemoteLibrary) :=
  if s.queryQueue.length = 0 && !s.exit then none
  else if s.exit then some (none, s)
  else
    match s.queryQueue with
    | front :: rest => some (some front, { s with queryQueue := rest })
    | [] => none

/-- One turn of the loop of `ThreadProc`; the library is unchanged when the
loop has ended or while `GetNextQuery` waits. `GetNextQuery` and `RunQuery`
lock `queueMutex` one after the other; what another thread can do in between
(append to the queue, complete a query) does not touch what `RunQuery` reads,
so the turn is taken as one transition. -/
def RemoteLibrary.ThreadProc (s : RemoteLibrary) : RemoteLibrary :=
  if !s.exit then
    match s.GetNextQuery with
    | some (some query, s') => s'.RunQuery query
    | some (none, s') => s'
    | none => s
  else s

def RemoteLibrary.NotifyQueryCompleted (s : RemoteLibrary) (context : QueryContext) :
    RemoteLibrary :=
  let s := { s with signals := s.signals ++ [Signal.QueryCompleted context.query] }
  match context.callback with
  | some callback => { s with signals := s.signals ++ [Signal.Callback callback context.query] }
  | none => s

/-- The overload `OnQueryCompleted(QueryContextPtr)`. -/
def RemoteLibrary.OnQueryCompletedContext (s : RemoteLibrary) (context : QueryContextPtr) :
    RemoteLibrary :=
  match context with
  | some c =>
    match s.messageQueue with
    | some q => { s with messageQueue := some (q.Post (Message.QueryCompleted s.self c) 0) }
    | none => s.NotifyQueryCompleted c
  | none => s

/-- The overload `OnQueryCompleted(const std::string&, Query)`. -/
def RemoteLibrary.OnQueryCompleted (s : RemoteLibrary) (messageId : String) : RemoteLibrary :=
  let r := s.queriesInFlight.index messageId
  let context := r.1
  let s := { s with queriesInFlight := r.2.erase messageId }
  match context with
  | some c => s.OnQueryCompletedContext (some c)
  | none => s

/-- The method `SetMessageQueue`. The state keeps the content of the queue the
library points at, so a queue that is replaced is let go after `Unregister`. -/
def RemoteLibrary.SetMessageQueue (s : RemoteLibrary) (queue : MessageQueue) : RemoteLibrary :=
  let queue :=
    match s.messageQueue with
    | some old => if old.addr ≠ queue.addr then queue else old
    | none => queue
  { s with messageQueue := some (queue.Register s.self) }

def RemoteLibrary.ProcessMessage (s : RemoteLibrary) (message : Message) : RemoteLibrary :=
  match message with
  | .QueryCompleted _ context => s.NotifyQueryCompleted context
  | .ReconnectSocket _ =>
    if s.wsc.state = State.Disconnected then s.ReloadConnectionFromPreferences else s
  | .UpdateConnectionState _ updatedState =>
    let s := { s with connectionState := updatedState }
    { s with signals := s.signals ++ [Signal.ConnectionStateChanged s.connectionState] }

/-- The callback `OnClientInvalidPassword`; `none` when `messageQueue` is
null, which the code dereferences. -/
def RemoteLibrary.OnClientInvalidPassword (s : RemoteLibrary) : Option RemoteLibrary :=
  match s.messageQueue with
  | some q =>
    some { s with messageQueue := some (q.Post
      (Message.UpdateConnectionState s.self ConnectionState.AuthenticationFailure) 0) }
  | none => none

def kConnectionStateMap : State → ConnectionState
  | State.Disconnected => ConnectionState.Disconnected
  | State.Disconnecting => ConnectionState.Disconnected
  | State.Connecting => ConnectionState.Connecting
  | State.Connected => ConnectionState.Connected

def RemoteLibrary.OnClientStateChanged (s : RemoteLibrary) (newState _oldState : State) :
    RemoteLibrary :=
  match s.messageQueue with
  | some q =>
    let reason := s.wsc.lastConnectionError
    let attemptReconnect :=
      newState == State.Disconnected &&
      reason != ConnectionError.InvalidPassword &&
      reason != ConnectionError.IncompatibleVersion
    let q :=
      if attemptReconnect then
        (q.Remove s.self MESSAGE_RECONNECT_SOCKET).Post (Message.ReconnectSocket s.self) 2500
      else q
    let q := q.Post (Message.UpdateConnectionState s.self (kConnectionStateMap newState)) 0
    { s with messageQueue := some q }
  | none => s

def RemoteLibrary.OnClientQuerySucceeded (s : RemoteLibrary) (messageId : String) :
    RemoteLibrary :=
  s.OnQueryCompleted messageId

def RemoteLibrary.OnClientQueryFailed (s : RemoteLibrary) (messageId : String) :
    RemoteLibrary :=
  s.OnQueryCompleted messageId

/-! ## Calls made on a library by its threads -/

/-- Modelled from the spec: the transport (not part of this file) records its
new state and the reason, then calls the listener's `OnClientStateChanged`. -/
def RemoteLibrary.transportStateChanged (s : RemoteLibrary) (reason : ConnectionError)
    (newState oldState : State) : RemoteLibrary :=
  RemoteLibrary.OnClientStateChanged
    { s with wsc := { s.wsc with state := newState, lastConnectionError := reason } }
    newState oldState

/-- The library after the transport has reported, one after the other, state
changes to `Disconnected`; each event gives the transport's last connection
error and the old raw state. -/
def RemoteLibrary.disconnects (s : RemoteLibrary) (events : List (ConnectionError × State)) :
    RemoteLibrary :=
  events.foldl (fun s e => s.transportStateChanged e.1 State.Disconnected e.2) s

/-- A call that never blocks, made by the worker thread (`ThreadProc`, one
turn of its loop), by the transport (the `OnClient...` callbacks, and
`SetStatus`, the update of a query object's status when its result arrives),
by the event pump (`ProcessMessage`) or by the host (`Close`,
`SetMessageQueue`). -/
inductive Op
  | ThreadProc
  | Close
  | OnClientQuerySucceeded (messageId : String)
  | OnClientQueryFailed (messageId : String)
  | OnClientStateChanged (reason : ConnectionError) (newState oldState : State)
  | OnClientInvalidPassword
  | ProcessMessage (message : Message)
  | SetMessageQueue (queue : MessageQueue)
  | SetStatus (query : Query) (status : Status)
  deriving DecidableEq, Repr

def Op.step (o : Op) (s : RemoteLibrary) : Option RemoteLibrary :=
  match o with
  | .ThreadProc => some s.ThreadProc
  | .Close => some s.Close
  | .OnClientQuerySucceeded messageId => some (s.OnClientQuerySucceeded messageId)
  | .OnClientQueryFailed messageId => some (s.OnClientQueryFailed messageId)
  | .OnClientStateChanged reason newState oldState =>
    some (s.transportStateChanged reason newState oldState)
  | .OnClientInvalidPassword => s.OnClientInvalidPassword
  | .ProcessMessage message => some (s.ProcessMessage message)
  | .SetMessageQueue queue => some (s.SetMessageQueue queue)
  | .SetStatus query status => some { s with status := (query.ptr, status) :: s.status }

def Op.steps : List Op → RemoteLibrary → Option RemoteLibrary
  | [], s => some s
  | o :: rest, s =>
    match o.step s with
    | some s' => Op.steps rest s'
    | none => none

/-- A call on the library: one that never blocks, or `Enqueue`, with what the
other threads do during each wait of a synchronous call. -/
inductive Call
  | op (o : Op)
  | Enqueue (query : Query) (options : Nat) (callback : Option Nat) (others : List (List Op))
  deriving DecidableEq, Repr

def Call.step (x : Externals) (c : Call) (s : RemoteLibrary) : Option RemoteLibrary :=
  match c with
  | .op o => o.step s
  | .Enqueue query options callback others =>
    (s.Enqueue x (others.map Op.steps) query options callback).map (fun r => r.2)

/-- The library after a sequence of calls, `none` when one of them does not
return. -/
def run (x : Externals) : List Call → RemoteLibrary → Option RemoteLibrary
  | [], s => some s
  | c :: rest, s =>
    match c.step x s with
    | some s' => run x rest s'
    | none => none

/-- The query passed to a call of `Enqueue`. -/
def Call.enqueued : Call → Option Query
  | .Enqueue query _ _ _ => some query
  | .op _ => none

/-- The calls of a run of asynchronous enqueues against the worker: an
`Enqueue` of a query that is not local-only and is serializable, without the
flag `QuerySynchronous`, or one turn of the worker loop. -/
def Call.isAsyncEnqueueOrWorker (x : Externals) : Call → Bool
  | .Enqueue query options _ _ =>
    !x.IsLocalOnlyQuery query.name && query.serializable &&
      (options &&& x.QuerySynchronous == 0)
  | .op .ThreadProc => true
  | .op _ => false

/-- The queries of the contexts in the pending queue, front first. -/
def RemoteLibrary.pendingQueries (s : RemoteLibrary) : List Query :=
  s.queryQueue.filterMap (fun context => context.query)

/-- The shutdown discipline of the library: the worker thread exists or
`exit` is set; with `exit` set the pending queue is empty; and, when `closed`
is true, `exit` is set. -/
def RemoteLibrary.shutdownInvariant (closed : Bool) (s : RemoteLibrary) : Prop :=
  (s.thread = true ∨ s.exit = true) ∧ (s.exit = true → s.queryQueue = []) ∧
    (closed = true → s.exit = true)

instance (closed : Bool) (s : RemoteLibrary) : Decidable (s.shutdownInvariant closed) := by
  unfold RemoteLibrary.shutdownInvariant
  infer_instance

/-! ## The remote track locator -/

/-- The interface `ITrack` as `GetTrackUri` uses it: `Uri(buffer, size)` gives
the number it returns and the C string the buffer holds afterwards (empty when
nothing was written, as `buffer[0] = 0` beforehand), `GetId()` the track id. -/
structure ITrack where
  Uri : Nat → Int × String
  GetId : Int

/-- The four fields of the JSON object `path`. -/
structure TrackPath where
  uri : String
  originalUri : String
  type : String
  password : String
  deriving DecidableEq, Repr

/-- The call `s.find_last_of(c)` for a single character: the last position
holding it, `none` for `npos`. -/
def find_last_of : List Char → Char → Option Nat
  | [], _ => none
  | a :: rest, c =>
    match find_last_of rest c with
    | some i => some (i + 1)
    | none => if a = c then some 0 else none

/-- The call `s.substr(pos)`. -/
def substr (s : List Char) (pos : Nat) : List Char :=
  s.drop pos

/-- The JSON object `path` built by `GetTrackUri`. -/
def GetTrackUriPath (prefs : Preferences) (track : ITrack) : TrackPath :=
  let r := track.Uri 4096
  let size := r.1
  let buffer := r.2
  let type :=
    if size ≠ 0 then
      let originalUri := buffer
      match find_last_of originalUri.toList '.' with
      | some lastDot => String.mk (substr originalUri.toList lastDot)
      | none => ".mp3"
    else ".mp3"
  let host := prefs.RemoteLibraryHostname.getD "127.0.0.1"
  let port := toShort (prefs.RemoteLibraryHttpPort.getD 7905)
  let password := prefs.RemoteLibraryPassword.getD ""
  let uri := "http://" ++ host ++ ":" ++ toString port ++ "/audio/id/" ++ toString track.GetId
  { uri := uri, originalUri := buffer, type := type, password := password }

/-- The method `GetTrackUri`; `dump` is `nlohmann::json::dump` on the object. -/
def GetTrackUri (dump : TrackPath → String) (prefs : Preferences) (track : ITrack)
    (_defaultUri : String) : String :=
  "musikcore://remote-track/" ++ dump (GetTrackUriPath prefs track)

/-! ## Concrete data used in the examples -/

def exampleExternals : Externals :=
  { IsLocalOnlyQuery := fun _ => false
    DefaultLocalLibraryEnqueue := fun query _ _ => query.id
    QuerySynchronous := 1 }

def exampleWsc : WebSocketClient :=
  { state := State.Disconnected, lastConnectionError := ConnectionError.None,
    messageIds := ["a1", "a2", "a3"], sent := [], requests := [] }

def examplePrefs : Preferences :=
  { RemoteLibraryHostname := some "10.0.0.5", RemoteLibraryWssPort := none,
    RemoteLibraryHttpPort := some 7905, RemoteLibraryPassword := some "secret",
    RemoteLibraryViewed := none }

def exampleLibrary : RemoteLibrary :=
  RemoteLibrary.Create 1 "remote" 7 exampleWsc examplePrefs

def exampleQueue : MessageQueue :=
  { addr := 100, targets := [], pending := [], posted := 0 }

/-- The example library with `exampleQueue` as its event pump. -/
def examplePumped : RemoteLibrary :=
  exampleLibrary.SetMessageQueue exampleQueue

/-- The example library with its event pump, the transport having recorded
the rejection of the password. -/
def exampleRejected : RemoteLibrary :=
  { examplePumped with
    wsc := { exampleWsc with lastConnectionError := ConnectionError.InvalidPassword } }

/-- The example library with a transport that accepts nothing: every token
it returns is empty. -/
def exampleOffline : RemoteLibrary :=
  RemoteLibrary.Create 1 "remote" 7 { exampleWsc with messageIds := [] } examplePrefs

/-- A track with id 42 whose `Uri` leaves the given string in the buffer and
returns its length plus one. -/
def exampleTrack (uri : String) : ITrack :=
  { Uri := fun _ => (uri.length + 1, uri), GetId := 42 }

def exampleQuery (n : Nat) : Query :=
  { ptr := n, id := n, name := "search", serializable := true }

def exampleContext : QueryContext :=
  { query := some (exampleQuery 1), callback := some 3 }

/-- The example library after the hand-off of `exampleContext`, which the
transport accepts under the token `a1`. -/
def exampleInFlight : RemoteLibrary :=
  exampleLibrary.RunQuery exampleContext

/-! ## The registry of queries in flight -/

theorem Registry.find_eq_none_iff (m : Registry) (k : String) :
    m.find k = none ↔ ∀ kv ∈ m, kv.1 ≠ k := by
  simp [Registry.find, List.find?_eq_none]

theorem Registry.erase_eq_self (m : Registry) (k : String) (h : ∀ kv ∈ m, kv.1 ≠ k) :
    m.erase k = m := by
  unfold Registry.erase
  rw [List.filter_eq_self]
  intro kv hkv
  simpa using h kv hkv

theorem Registry.erase_insert (m : Registry) (k : String) (c : QueryContextPtr)
    (h : ∀ kv ∈ m, kv.1 ≠ k) : (m.insert k c).erase k = m := by
  induction m with
  | nil => simp [Registry.insert, Registry.erase]
  | cons kv rest ih =>
    have hkv : kv.1 ≠ k := h kv (List.mem_cons_self _ _)
    have hrest : ∀ e ∈ rest, e.1 ≠ k := fun e he => h e (List.mem_cons_of_mem _ he)
    unfold Registry.insert
    split
    · have := Registry.erase_eq_self (kv :: rest) k h
      simpa [Registry.erase] using this
    · have := ih hrest
      simp only [Registry.erase] at this ⊢
      rw [List.filter_cons_of_pos (by simpa using hkv), this]

theorem Registry.find_erase_self (m : Registry) (k : String) : (m.erase k).find k = none := by
  rw [Registry.find_eq_none_iff]
  intro kv hkv
  simp [Registry.erase] at hkv
  exact hkv.2

theorem Registry.find_erase_of_ne (m : Registry) (k k' : String) (h : k' ≠ k) :
    (m.erase k).find k' = m.find k' := by
  have key : List.find? (fun kv => kv.1 == k') (m.filter (fun kv => kv.1 != k)) =
      List.find? (fun kv => kv.1 == k') m := by
    induction m with
    | nil => rfl
    | cons kv rest ih =>
      by_cases hk : kv.1 = k
      · have hk' : ¬ kv.1 = k' := fun e => h (e ▸ hk ▸ rfl)
        rw [List.filter_cons_of_neg (by simpa using hk),
          List.find?_cons_of_neg _ (by simpa using hk'), ih]
      · rw [List.filter_cons_of_pos (by simpa using hk)]
        by_cases hk' : kv.1 = k'
        · rw [List.find?_cons_of_pos _ (by simpa using hk'),
            List.find?_cons_of_pos _ (by simpa using hk')]
        · rw [List.find?_cons_of_neg _ (by simpa using hk'),
            List.find?_cons_of_neg _ (by simpa using hk'), ih]
  simp only [Registry.erase, Registry.find, key]

theorem Registry.mem_erase (m : Registry) (k : String) (kv : String × QueryContextPtr) :
    kv ∈ m.erase k ↔ kv ∈ m ∧ kv.1 ≠ k := by
  simp [Registry.erase]

theorem OnQueryCompletedContext_queriesInFlight (s : RemoteLibrary) (c : QueryContextPtr) :
    (s.OnQueryCompletedContext c).queriesInFlight = s.queriesInFlight := by
  unfold RemoteLibrary.OnQueryCompletedContext
  cases c with
  | none => rfl
  | some c =>
    cases hq : s.messageQueue with
    | some q => rfl
    | none =>
      simp only [RemoteLibrary.NotifyQueryCompleted]
      cases c.callback <;> rfl

theorem OnQueryCompleted_of_find_none (s : RemoteLibrary) (T : String)
    (h : s.queriesInFlight.find T = none) : s.OnQueryCompleted T = s := by
  have hne := (Registry.find_eq_none_iff _ _).1 h
  simp only [RemoteLibrary.OnQueryCompleted, Registry.index, h,
    Registry.erase_insert s.queriesInFlight T none hne]

theorem OnQueryCompleted_of_find_some (s : RemoteLibrary) (T : String) (c : QueryContext)
    (h : s.queriesInFlight.find T = some (some c)) :
    s.OnQueryCompleted T =
      RemoteLibrary.OnQueryCompletedContext
        { s with queriesInFlight := s.queriesInFlight.erase T } (some c) := by
  simp only [RemoteLibrary.OnQueryCompleted, Registry.index, h]

theorem OnQueryCompleted_queriesInFlight (s : RemoteLibrary) (T : String) :
    (s.OnQueryCompleted T).queriesInFlight = s.queriesInFlight.erase T := by
  cases h : s.queriesInFlight.find T with
  | none =>
    rw [OnQueryCompleted_of_find_none s T h,
      Registry.erase_eq_self _ _ ((Registry.find_eq_none_iff _ _).1 h)]
  | some v =>
    cases v with
    | some c =>
      rw [OnQueryCompleted_of_find_some s T c h, OnQueryCompletedContext_queriesInFlight]
    | none =>
      simp only [RemoteLibrary.OnQueryCompleted, Registry.index, h]

/-- C2: `OnQueryCompleted(T, ...)` leaves in the registry exactly the entries
whose token is not `T`, so the entry of `T` is gone and every other entry is
as before; when a context was registered under `T` the call is one
`OnQueryCompleted(context)` of that context on the library without the entry;
when `T` is not registered (never handed off, or already completed) the
library is unchanged, nothing is notified; in particular a second call right
after the first changes nothing. -/
theorem C2_OnQueryCompleted_removes_exactly_once (s : RemoteLibrary) (T : String) :
    (s.OnQueryCompleted T).queriesInFlight = s.queriesInFlight.filter (fun kv => kv.1 != T) ∧
    (s.OnQueryCompleted T).queriesInFlight.find T = none ∧
    (∀ T', T' ≠ T →
      (s.OnQueryCompleted T).queriesInFlight.find T' = s.queriesInFlight.find T') ∧
    (∀ c, s.queriesInFlight.find T = some (some c) →
      s.OnQueryCompleted T =
        RemoteLibrary.OnQueryCompletedContext
          { s with queriesInFlight := s.queriesInFlight.erase T } (some c)) ∧
    (s.queriesInFlight.find T = none → s.OnQueryCompleted T = s) ∧
    (s.OnQueryCompleted T).OnQueryCompleted T = s.OnQueryCompleted T := by
  refine ⟨OnQueryCompleted_queriesInFlight s T, ?_, ?_, ?_, ?_, ?_⟩
  · rw [OnQueryCompleted_queriesInFlight]
    exact Registry.find_erase_self _ _
  · intro T' hT'
    rw [OnQueryCompleted_queriesInFlight]
    exact Registry.find_erase_of_ne _ _ _ hT'
  · exact fun c h => OnQueryCompleted_of_find_some s T c h
  · exact OnQueryCompleted_of_find_none s T
  · apply OnQueryCompleted_of_find_none
    rw [OnQueryCompleted_queriesInFlight]
    exact Registry.find_erase_self _ _

/-- C2, at a library with one query in flight under the token `a1`: the
completion of `a1` empties the registry and signals the query and its
callback once; the completion of the unregistered token `zz` changes
nothing. -/
theorem C2_OnQueryCompleted_removes_exactly_once_witness :
    exampleInFlight.queriesInFlight.find "a1" = some (some exampleContext) ∧
    exampleInFlight.OnQueryCompleted "a1" =
      RemoteLibrary.OnQueryCompletedContext
        { exampleInFlight with queriesInFlight := exampleInFlight.queriesInFlight.erase "a1" }
        (some exampleContext) ∧
    (exampleInFlight.OnQueryCompleted "a1").queriesInFlight = [] ∧
    (exampleInFlight.OnQueryCompleted "a1").signals =
      [Signal.QueryCompleted (some (exampleQuery 1)), Signal.Callback 3 (some (exampleQuery 1))] ∧
    exampleInFlight.queriesInFlight.find "zz" = none ∧
    exampleInFlight.OnQueryCompleted "zz" = exampleInFlight :=
  ⟨by decide,
    (C2_OnQueryCompleted_removes_exactly_once exampleInFlight "a1").2.2.2.1 exampleContext
      (by decide),
    by decide, by decide, by decide,
    (C2_OnQueryCompleted_removes_exactly_once exampleInFlight "zz").2.2.2.2.1 (by decide)⟩

/-! ## Completion notification -/

/-- C8: for a non-null context, with an event pump registered
`OnQueryCompleted(context)` only posts one query-completed event carrying the
context (no signal is emitted, nothing else changes), and the delivery of that
event by `ProcessMessage` is `NotifyQueryCompleted`; with no event pump it
emits the `QueryCompleted` signal and then, when the callback is present, one
call of the callback with the context's query, and posts nothing. -/
theorem C8_OnQueryCompleted_posts_or_notifies_inline (s : RemoteLibrary) (context : QueryContext) :
    (∀ q, s.messageQueue = some q →
      s.OnQueryCompletedContext (some context) =
        { s with messageQueue := some (q.Post (Message.QueryCompleted s.self context) 0) } ∧
      (q.Post (Message.QueryCompleted s.self context) 0).pending =
        q.pending ++ [⟨Message.QueryCompleted s.self context, 0, q.posted⟩] ∧
      (s.OnQueryCompletedContext (some context)).signals = s.signals ∧
      ((s.OnQueryCompletedContext (some context)).ProcessMessage
          (Message.QueryCompleted s.self context)).signals =
        s.signals ++ Signal.QueryCompleted context.query ::
          (match context.callback with
           | some callback => [Signal.Callback callback context.query]
           | none => [])) ∧
    (s.messageQueue = none →
      (s.OnQueryCompletedContext (some context)).signals =
        s.signals ++ Signal.QueryCompleted context.query ::
          (match context.callback with
           | some callback => [Signal.Callback callback context.query]
           | none => []) ∧
      (s.OnQueryCompletedContext (some context)).messageQueue = none ∧
      s.OnQueryCompletedContext (some context) = s.NotifyQueryCompleted context) := by
  constructor
  · intro q hq
    refine ⟨?_, rfl, ?_, ?_⟩
    · simp only [RemoteLibrary.OnQueryCompletedContext, hq]
    · simp only [RemoteLibrary.OnQueryCompletedContext, hq]
    · simp only [RemoteLibrary.OnQueryCompletedContext, hq, RemoteLibrary.ProcessMessage,
        RemoteLibrary.NotifyQueryCompleted]
      cases context.callback <;> simp
  · intro hq
    refine ⟨?_, ?_, ?_⟩
    · simp only [RemoteLibrary.OnQueryCompletedContext, hq, RemoteLibrary.NotifyQueryCompleted]
      cases context.callback <;> simp
    · simp only [RemoteLibrary.OnQueryCompletedContext, hq, RemoteLibrary.NotifyQueryCompleted]
      cases context.callback <;> simp [hq]
    · simp only [RemoteLibrary.OnQueryCompletedContext, hq]

/-- C8, at the example library: with the event pump the completion of
`exampleContext` leaves one pending event and no signal; without it the signal
and the callback `3` are emitted at once. -/
theorem C8_OnQueryCompleted_posts_or_notifies_inline_witness :
    (examplePumped.messageQueue = some (exampleQueue.Register 1) ∧
      (examplePumped.OnQueryCompletedContext (some exampleContext)).signals = [] ∧
      (examplePumped.OnQueryCompletedContext (some exampleContext)).messageQueue.map
          (fun q => q.pending) =
        some [⟨Message.QueryCompleted 1 exampleContext, 0, 0⟩]) ∧
    (exampleLibrary.messageQueue = none ∧
      (exampleLibrary.OnQueryCompletedContext (some exampleContext)).signals =
        [] ++ Signal.QueryCompleted exampleContext.query ::
          (match exampleContext.callback with
           | some callback => [Signal.Callback callback exampleContext.query]
           | none => [])) :=
  ⟨⟨by decide, by decide, by decide⟩, by decide,
    ((C8_OnQueryCompleted_posts_or_notifies_inline exampleLibrary exampleContext).2
      (by decide)).1⟩

/-! ## Connection state -/

theorem pendingReconnects_Post_update (q : MessageQueue) (t target : Nat)
    (state : ConnectionState) :
    (q.Post (Message.UpdateConnectionState t state) 0).pendingReconnects target =
      q.pendingReconnects target := by
  simp [MessageQueue.Post, MessageQueue.pendingReconnects, Message.Type,
    MESSAGE_UPDATE_CONNECTION_STATE, MESSAGE_RECONNECT_SOCKET]

theorem pendingReconnects_Remove_Post (q : MessageQueue) (target : Nat) :
    ((q.Remove target MESSAGE_RECONNECT_SOCKET).Post
        (Message.ReconnectSocket target) 2500).pendingReconnects target =
      [⟨Message.ReconnectSocket target, 2500, q.posted⟩] := by
  simp [MessageQueue.Post, MessageQueue.Remove, MessageQueue.pendingReconnects, Message.Type,
    Message.Target, List.filter_filter]

theorem OnClientStateChanged_terminal (s : RemoteLibrary) (q : MessageQueue)
    (newState oldState : State) (hq : s.messageQueue = some q)
    (h : s.wsc.lastConnectionError = ConnectionError.InvalidPassword ∨
      s.wsc.lastConnectionError = ConnectionError.IncompatibleVersion) :
    s.OnClientStateChanged newState oldState =
      { s with
        messageQueue :=
          some (q.Post (Message.UpdateConnectionState s.self (kConnectionStateMap newState)) 0) } := by
  rcases h with h | h <;>
    simp [RemoteLibrary.OnClientStateChanged, hq, h]

/-- C6: when the transport's last connection error is `InvalidPassword` or
`IncompatibleVersion`, `OnClientStateChanged`, whatever the new and old raw
states, posts only the connection-state update when an event pump is
registered (the pending events are the old ones followed by that update, the
pending reconnect events of every target are the same as before) and changes
nothing when none is registered. -/
theorem C6_OnClientStateChanged_no_reconnect_on_terminal_error (s : RemoteLibrary)
    (newState oldState : State)
    (h : s.wsc.lastConnectionError = ConnectionError.InvalidPassword ∨
      s.wsc.lastConnectionError = ConnectionError.IncompatibleVersion) :
    (∀ q, s.messageQueue = some q →
      ∃ q', (s.OnClientStateChanged newState oldState).messageQueue = some q' ∧
        q'.pending = q.pending ++
          [⟨Message.UpdateConnectionState s.self (kConnectionStateMap newState), 0, q.posted⟩] ∧
        (∀ target, q'.pendingReconnects target = q.pendingReconnects target) ∧
        s.OnClientStateChanged newState oldState = { s with messageQueue := some q' }) ∧
    (s.messageQueue = none → s.OnClientStateChanged newState oldState = s) := by
  constructor
  · intro q hq
    refine ⟨q.Post (Message.UpdateConnectionState s.self (kConnectionStateMap newState)) 0,
      ?_, rfl, fun target => pendingReconnects_Post_update q _ target _, ?_⟩
    · rw [OnClientStateChanged_terminal s q newState oldState hq h]
    · rw [OnClientStateChanged_terminal s q newState oldState hq h]
  · intro hq
    simp only [RemoteLibrary.OnClientStateChanged, hq]

/-- C6, at the example library after a rejected password: a change to
`Disconnected` posts the update alone. -/
theorem C6_OnClientStateChanged_no_reconnect_on_terminal_error_witness :
    exampleRejected.wsc.lastConnectionError = ConnectionError.InvalidPassword ∧
    ∃ q', (exampleRejected.OnClientStateChanged State.Disconnected State.Connecting).messageQueue
        = some q' ∧
      q'.pending = (exampleQueue.Register 1).pending ++
        [⟨Message.UpdateConnectionState exampleRejected.self
          (kConnectionStateMap State.Disconnected), 0, (exampleQueue.Register 1).posted⟩] ∧
      (∀ target, q'.pendingReconnects target =
        (exampleQueue.Register 1).pendingReconnects target) ∧
      exampleRejected.OnClientStateChanged State.Disconnected State.Connecting =
        { exampleRejected with messageQueue := some q' } :=
  ⟨by decide,
    (C6_OnClientStateChanged_no_reconnect_on_terminal_error exampleRejected State.Disconnected
      State.Connecting (Or.inl (by decide))).1 (exampleQueue.Register 1) (by decide)⟩

theorem transportStateChanged_disconnected (s : RemoteLibrary) (q : MessageQueue)
    (reason : ConnectionError) (oldState : State) (hq : s.messageQueue = some q)
    (h1 : reason ≠ ConnectionError.InvalidPassword)
    (h2 : reason ≠ ConnectionError.IncompatibleVersion) :
    ∃ q', (s.transportStateChanged reason State.Disconnected oldState).messageQueue = some q' ∧
      q'.pendingReconnects s.self = [⟨Message.ReconnectSocket s.self, 2500, q.posted⟩] ∧
      q'.posted = q.posted + 2 ∧
      (s.transportStateChanged reason State.Disconnected oldState).self = s.self := by
  refine ⟨((q.Remove s.self MESSAGE_RECONNECT_SOCKET).Post
      (Message.ReconnectSocket s.self) 2500).Post
      (Message.UpdateConnectionState s.self ConnectionState.Disconnected) 0, ?_, ?_, ?_, ?_⟩
  · simp [RemoteLibrary.transportStateChanged, RemoteLibrary.OnClientStateChanged, hq, h1, h2,
      kConnectionStateMap]
  · rw [pendingReconnects_Post_update, pendingReconnects_Remove_Post]
  · simp [MessageQueue.Post, MessageQueue.Remove]
  · simp [RemoteLibrary.transportStateChanged, RemoteLibrary.OnClientStateChanged, hq]

/-- C5: with an event pump registered, after any non-empty sequence of state
changes to `Disconnected` whose last connection error is neither
`InvalidPassword` nor `IncompatibleVersion`, the pump holds exactly one pending
reconnect event for this library, posted with a delay of 2500 ms; it is the
one posted by the last state change (each change posts two events, and the
serial number of the pending reconnect is that of the last but one event
posted), so every reconnect event scheduled earlier has been removed. -/
theorem C5_disconnects_leave_one_reconnect (s : RemoteLibrary) (q : MessageQueue)
    (events : List (ConnectionError × State)) (hq : s.messageQueue = some q)
    (hne : events ≠ [])
    (hr : ∀ e ∈ events,
      e.1 ≠ ConnectionError.InvalidPassword ∧ e.1 ≠ ConnectionError.IncompatibleVersion) :
    ∃ q', (s.disconnects events).messageQueue = some q' ∧
      q'.pendingReconnects s.self = [⟨Message.ReconnectSocket s.self, 2500, q'.posted - 2⟩] ∧
      q'.posted = q.posted + 2 * events.length := by
  induction events generalizing s q with
  | nil => exact absurd rfl hne
  | cons e rest ih =>
    obtain ⟨q1, hq1, hp1, hn1, hs1⟩ :=
      transportStateChanged_disconnected s q e.1 e.2 hq (hr e (List.mem_cons_self _ _)).1
        (hr e (List.mem_cons_self _ _)).2
    cases rest with
    | nil =>
      refine ⟨q1, ?_, ?_, ?_⟩
      · simpa [RemoteLibrary.disconnects] using hq1
      · rw [hp1, hn1]
        simp
      · simp [hn1]
    | cons e' rest' =>
      obtain ⟨q', hq', hp', hn'⟩ :=
        ih (s.transportStateChanged e.1 State.Disconnected e.2) q1 hq1 (by simp)
          (fun x hx => hr x (List.mem_cons_of_mem _ hx))
      refine ⟨q', ?_, ?_, ?_⟩
      · simpa [RemoteLibrary.disconnects] using hq'
      · rw [← hs1]
        exact hp'
      · rw [hn', hn1]
        simp only [List.length_cons]
        omega

/-- C5, at the example library with its event pump: after three disconnects
in a row (reasons `Other`, `None`, `Other`) one reconnect event is pending. -/
theorem C5_disconnects_leave_one_reconnect_witness :
    ∃ q', (examplePumped.disconnects
        [(ConnectionError.Other, State.Connected), (ConnectionError.None, State.Connecting),
          (ConnectionError.Other, State.Connecting)]).messageQueue = some q' ∧
      q'.pendingReconnects examplePumped.self =
        [⟨Message.ReconnectSocket examplePumped.self, 2500, q'.posted - 2⟩] ∧
      q'.posted = (exampleQueue.Register 1).posted + 2 *
        [(ConnectionError.Other, State.Connected), (ConnectionError.None, State.Connecting),
          (ConnectionError.Other, State.Connecting)].length :=
  C5_disconnects_leave_one_reconnect examplePumped (exampleQueue.Register 1) _ (by decide)
    (by decide) (by decide)

/-- C7 fails as stated: at the example library with its event pump, when the
transport reports a change to `Disconnected` after rejecting the password, the
only event posted carries `Disconnected`, and `connectionState` after
`ProcessMessage` handles it is `Disconnected`, not `AuthenticationFailure`. -/
theorem C7_counterexample :
    ((examplePumped.transportStateChanged ConnectionError.InvalidPassword State.Disconnected
        State.Connecting).messageQueue.map (fun q => q.pending.map (fun p => p.message)) =
      some [Message.UpdateConnectionState 1 ConnectionState.Disconnected]) ∧
    ((examplePumped.transportStateChanged ConnectionError.InvalidPassword State.Disconnected
        State.Connecting).ProcessMessage
        (Message.UpdateConnectionState 1 ConnectionState.Disconnected)).connectionState ≠
      ConnectionState.AuthenticationFailure := by
  decide

/-- C7 as amended: when the transport's last connection error is
`InvalidPassword` and it reports a change to `Disconnected`, the event
`OnClientStateChanged` posts carries `Disconnected` (and `connectionState` is
`Disconnected` once `ProcessMessage` handles it); `AuthenticationFailure` is
published by the callback `OnClientInvalidPassword`, which with an event pump
registered posts one connection-state event carrying `AuthenticationFailure`,
and `connectionState` is `AuthenticationFailure` once `ProcessMessage` handles
that event. -/
theorem C7_AuthenticationFailure_published_by_OnClientInvalidPassword (s : RemoteLibrary)
    (q : MessageQueue) (oldState : State) (hq : s.messageQueue = some q)
    (h : s.wsc.lastConnectionError = ConnectionError.InvalidPassword) :
    (∃ q', (s.OnClientStateChanged State.Disconnected oldState).messageQueue = some q' ∧
      q'.pending = q.pending ++
        [⟨Message.UpdateConnectionState s.self ConnectionState.Disconnected, 0, q.posted⟩]) ∧
    ((s.OnClientStateChanged State.Disconnected oldState).ProcessMessage
        (Message.UpdateConnectionState s.self ConnectionState.Disconnected)).connectionState =
      ConnectionState.Disconnected ∧
    (∃ s' q', s.OnClientInvalidPassword = some s' ∧ s'.messageQueue = some q' ∧
      q'.pending = q.pending ++
        [⟨Message.UpdateConnectionState s.self ConnectionState.AuthenticationFailure, 0,
          q.posted⟩] ∧
      (s'.ProcessMessage
        (Message.UpdateConnectionState s.self ConnectionState.AuthenticationFailure)).connectionState
        = ConnectionState.AuthenticationFailure) := by
  refine ⟨⟨q.Post (Message.UpdateConnectionState s.self ConnectionState.Disconnected) 0, ?_,
    rfl⟩, ?_, ?_⟩
  · rw [OnClientStateChanged_terminal s q _ oldState hq (Or.inl h)]
    rfl
  · rw [OnClientStateChanged_terminal s q _ oldState hq (Or.inl h)]
    rfl
  · refine ⟨{ s with messageQueue := some (q.Post
      (Message.UpdateConnectionState s.self ConnectionState.AuthenticationFailure) 0) },
      q.Post (Message.UpdateConnectionState s.self ConnectionState.AuthenticationFailure) 0,
      ?_, rfl, rfl, rfl⟩
    simp only [RemoteLibrary.OnClientInvalidPassword, hq]

/-- C7 as amended, at the example library after a rejected password. -/
theorem C7_AuthenticationFailure_published_by_OnClientInvalidPassword_witness :
    exampleRejected.messageQueue = some (exampleQueue.Register 1) ∧
    exampleRejected.wsc.lastConnectionError = ConnectionError.InvalidPassword ∧
    ∃ s' q', exampleRejected.OnClientInvalidPassword = some s' ∧ s'.messageQueue = some q' ∧
      q'.pending = (exampleQueue.Register 1).pending ++
        [⟨Message.UpdateConnectionState exampleRejected.self
          ConnectionState.AuthenticationFailure, 0, (exampleQueue.Register 1).posted⟩] ∧
      (s'.ProcessMessage
        (Message.UpdateConnectionState exampleRejected.self
          ConnectionState.AuthenticationFailure)).connectionState
        = ConnectionState.AuthenticationFailure :=
  ⟨by decide, by decide,
    (C7_AuthenticationFailure_published_by_OnClientInvalidPassword exampleRejected
      (exampleQueue.Register 1) State.Connecting (by decide) (by decide)).2.2⟩

/-! ## The pending queue and the worker -/

theorem RunQuery_frame (s : RemoteLibrary) (context : QueryContext) :
    (s.RunQuery context).exit = s.exit ∧ (s.RunQuery context).thread = s.thread ∧
    (s.RunQuery context).queryQueue = s.queryQueue := by
  unfold RemoteLibrary.RunQuery RemoteLibrary.RunQueryOnWebSocketClient
  cases context.query with
  | none => exact ⟨rfl, rfl, rfl⟩
  | some query =>
    dsimp only
    split <;> exact ⟨rfl, rfl, rfl⟩

theorem RunQuery_sent (s : RemoteLibrary) (context : QueryContext) :
    (s.RunQuery context).wsc.sent = s.wsc.sent ++ context.query.toList := by
  unfold RemoteLibrary.RunQuery RemoteLibrary.RunQueryOnWebSocketClient
  cases context.query with
  | none => simp
  | some query =>
    dsimp only
    split <;> simp [WebSocketClient.EnqueueQuery]

theorem RunQuery_messageIds (s : RemoteLibrary) (query : Query) (callback : Option Nat) :
    (s.RunQuery { query := some query, callback := callback }).wsc.messageIds =
      s.wsc.messageIds.tail := by
  unfold RemoteLibrary.RunQuery RemoteLibrary.RunQueryOnWebSocketClient
  dsimp only
  split <;> simp [WebSocketClient.EnqueueQuery]

theorem ThreadProc_nil (s : RemoteLibrary) (h : s.queryQueue = []) : s.ThreadProc = s := by
  unfold RemoteLibrary.ThreadProc RemoteLibrary.GetNextQuery
  cases he : s.exit <;> simp [h]

theorem ThreadProc_cons (s : RemoteLibrary) (front : QueryContext) (rest : List QueryContext)
    (he : s.exit = false) (h : s.queryQueue = front :: rest) :
    s.ThreadProc = RemoteLibrary.RunQuery { s with queryQueue := rest } front := by
  unfold RemoteLibrary.ThreadProc RemoteLibrary.GetNextQuery
  simp [h, he]

theorem ThreadProc_order (s : RemoteLibrary) (he : s.exit = false) :
    (s.ThreadProc).exit = false ∧
    (s.ThreadProc).wsc.sent ++ (s.ThreadProc).pendingQueries = s.wsc.sent ++ s.pendingQueries ∧
    (s.ThreadProc).queryQueue.length = s.queryQueue.length - 1 := by
  cases hq : s.queryQueue with
  | nil =>
    rw [ThreadProc_nil s hq]
    simp [he, hq]
  | cons front rest =>
    rw [ThreadProc_cons s front rest he hq]
    obtain ⟨h1, -, h3⟩ := RunQuery_frame { s with queryQueue := rest } front
    refine ⟨by rw [h1]; exact he, ?_, by rw [h3]; simp⟩
    rw [RunQuery_sent]
    simp only [RemoteLibrary.pendingQueries, h3, hq]
    cases hf : front.query <;> simp [List.filterMap_cons, hf]

theorem Enqueue_async (x : Externals) (others : List (RemoteLibrary → Option RemoteLibrary))
    (s : RemoteLibrary) (query : Query) (options : Nat) (callback : Option Nat)
    (hl : x.IsLocalOnlyQuery query.name = false) (hs : query.serializable = true)
    (ho : options &&& x.QuerySynchronous = 0) :
    s.Enqueue x others query options callback =
      if s.exit then some (-1, s)
      else some (query.id,
        { s with queryQueue := s.queryQueue ++ [{ query := some query, callback := callback }] }) := by
  simp [RemoteLibrary.Enqueue, hl, hs, ho]

theorem step_order (x : Externals) (c : Call) (s : RemoteLibrary) (he : s.exit = false)
    (hc : c.isAsyncEnqueueOrWorker x = true) :
    ∃ s', c.step x s = some s' ∧ s'.exit = false ∧
      s'.wsc.sent ++ s'.pendingQueries = s.wsc.sent ++ s.pendingQueries ++ c.enqueued.toList := by
  cases c with
  | op o =>
    cases o <;> simp [Call.isAsyncEnqueueOrWorker] at hc
    refine ⟨s.ThreadProc, rfl, (ThreadProc_order s he).1, ?_⟩
    simpa [Call.enqueued] using (ThreadProc_order s he).2.1
  | Enqueue query options callback others =>
    simp only [Call.isAsyncEnqueueOrWorker, Bool.and_eq_true, Bool.not_eq_true',
      beq_iff_eq] at hc
    obtain ⟨⟨hl, hs⟩, ho⟩ := hc
    refine ⟨{ s with queryQueue := s.queryQueue ++ [{ query := some query, callback := callback }] },
      ?_, he, ?_⟩
    · simp [Call.step, Enqueue_async x _ s query options callback hl hs ho, he]
    · simp [RemoteLibrary.pendingQueries, Call.enqueued, List.filterMap_append]

theorem run_order (x : Externals) (calls : List Call) (s : RemoteLibrary) (he : s.exit = false)
    (hc : ∀ c ∈ calls, c.isAsyncEnqueueOrWorker x = true) :
    ∃ s', run x calls s = some s' ∧ s'.exit = false ∧
      s'.wsc.sent ++ s'.pendingQueries =
        s.wsc.sent ++ s.pendingQueries ++ calls.filterMap Call.enqueued := by
  induction calls generalizing s with
  | nil => exact ⟨s, rfl, he, by simp⟩
  | cons c rest ih =>
    obtain ⟨s1, h1, he1, ho1⟩ := step_order x c s he (hc c (List.mem_cons_self _ _))
    obtain ⟨s2, h2, he2, ho2⟩ := ih s1 he1 (fun d hd => hc d (List.mem_cons_of_mem _ hd))
    refine ⟨s2, by simp [run, h1, h2], he2, ?_⟩
    rw [ho2, ho1]
    cases c <;> simp [Call.enqueued]

theorem drain_order (x : Externals) (n : Nat) (s : RemoteLibrary) (he : s.exit = false)
    (hn : s.queryQueue.length ≤ n) :
    ∃ s', run x (List.replicate n (Call.op Op.ThreadProc)) s = some s' ∧ s'.queryQueue = [] ∧
      s'.wsc.sent = s.wsc.sent ++ s.pendingQueries := by
  induction n generalizing s with
  | zero =>
    have hq : s.queryQueue = [] := List.length_eq_zero.1 (Nat.le_zero.1 hn)
    exact ⟨s, rfl, hq, by simp [RemoteLibrary.pendingQueries, hq]⟩
  | succ n ih =>
    obtain ⟨he1, ho1, hl1⟩ := ThreadProc_order s he
    obtain ⟨s2, h2, hq2, hs2⟩ := ih s.ThreadProc he1 (by omega)
    refine ⟨s2, by simp [List.replicate_succ, run, Call.step, Op.step, h2], hq2, ?_⟩
    rw [hs2, ho1]

/-- C1: from any library on which `exit` is not set, after any sequence of
asynchronous `Enqueue` calls of serializable queries that are not local-only,
interleaved in any way with turns of the worker loop, every call has returned,
and the queries handed to the transport's `EnqueueQuery` so far, followed by
the queries still pending, are the queries that were pending at the start
followed by the enqueued ones in enqueue order; once the worker has taken as
many further turns as there are pending contexts, the pending queue is empty
and the transport has been handed exactly that sequence. -/
theorem C1_worker_hands_off_in_enqueue_order (x : Externals) (s : RemoteLibrary)
    (calls : List Call) (he : s.exit = false)
    (hc : ∀ c ∈ calls, c.isAsyncEnqueueOrWorker x = true) :
    ∃ s', run x calls s = some s' ∧
      s'.wsc.sent ++ s'.pendingQueries =
        s.wsc.sent ++ s.pendingQueries ++ calls.filterMap Call.enqueued ∧
      ∀ n, s'.queryQueue.length ≤ n →
        ∃ s'', run x (List.replicate n (Call.op Op.ThreadProc)) s' = some s'' ∧
          s''.queryQueue = [] ∧
          s''.wsc.sent = s.wsc.sent ++ s.pendingQueries ++ calls.filterMap Call.enqueued := by
  obtain ⟨s', hrun, he', ho⟩ := run_order x calls s he hc
  refine ⟨s', hrun, ho, fun n hn => ?_⟩
  obtain ⟨s'', hrun', hq, hs⟩ := drain_order x n s' he' hn
  exact ⟨s'', hrun', hq, by rw [hs, ho]⟩

/-- C1, at the example library: three enqueues with one turn of the worker
after the second; the transport is handed the queries 1, 2, 3 in that order. -/
theorem C1_worker_hands_off_in_enqueue_order_witness :
    ∃ s', run exampleExternals
        [Call.Enqueue (exampleQuery 1) 0 none [], Call.Enqueue (exampleQuery 2) 0 (some 3) [],
          Call.op Op.ThreadProc, Call.Enqueue (exampleQuery 3) 0 none []] exampleLibrary
        = some s' ∧
      s'.wsc.sent ++ s'.pendingQueries =
        exampleLibrary.wsc.sent ++ exampleLibrary.pendingQueries ++
          [Call.Enqueue (exampleQuery 1) 0 none [], Call.Enqueue (exampleQuery 2) 0 (some 3) [],
            Call.op Op.ThreadProc, Call.Enqueue (exampleQuery 3) 0 none []].filterMap
            Call.enqueued ∧
      ∀ n, s'.queryQueue.length ≤ n →
        ∃ s'', run exampleExternals (List.replicate n (Call.op Op.ThreadProc)) s' = some s'' ∧
          s''.queryQueue = [] ∧
          s''.wsc.sent = exampleLibrary.wsc.sent ++ exampleLibrary.pendingQueries ++
            [Call.Enqueue (exampleQuery 1) 0 none [], Call.Enqueue (exampleQuery 2) 0 (some 3) [],
              Call.op Op.ThreadProc, Call.Enqueue (exampleQuery 3) 0 none []].filterMap
              Call.enqueued :=
  C1_worker_hands_off_in_enqueue_order exampleExternals exampleLibrary _ (by decide)
    (by decide)

/-! ## Shutdown -/

theorem shutdownInvariant_of_frame (closed : Bool) (s s' : RemoteLibrary)
    (h1 : s'.exit = s.exit) (h2 : s'.thread = s.thread) (h3 : s'.queryQueue = s.queryQueue)
    (h : s.shutdownInvariant closed) : s'.shutdownInvariant closed := by
  unfold RemoteLibrary.shutdownInvariant at h ⊢
  rw [h1, h2, h3]
  exact h

theorem NotifyQueryCompleted_frame (s : RemoteLibrary) (context : QueryContext) :
    (s.NotifyQueryCompleted context).exit = s.exit ∧
    (s.NotifyQueryCompleted context).thread = s.thread ∧
    (s.NotifyQueryCompleted context).queryQueue = s.queryQueue := by
  unfold RemoteLibrary.NotifyQueryCompleted
  cases context.callback <;> exact ⟨rfl, rfl, rfl⟩

theorem OnQueryCompletedContext_frame (s : RemoteLibrary) (context : QueryContextPtr) :
    (s.OnQueryCompletedContext context).exit = s.exit ∧
    (s.OnQueryCompletedContext context).thread = s.thread ∧
    (s.OnQueryCompletedContext context).queryQueue = s.queryQueue := by
  unfold RemoteLibrary.OnQueryCompletedContext
  cases context with
  | none => exact ⟨rfl, rfl, rfl⟩
  | some c =>
    cases s.messageQueue with
    | some q => exact ⟨rfl, rfl, rfl⟩
    | none => exact NotifyQueryCompleted_frame s c

theorem OnQueryCompleted_frame (s : RemoteLibrary) (messageId : String) :
    (s.OnQueryCompleted messageId).exit = s.exit ∧
    (s.OnQueryCompleted messageId).thread = s.thread ∧
    (s.OnQueryCompleted messageId).queryQueue = s.queryQueue := by
  unfold RemoteLibrary.OnQueryCompleted
  dsimp only
  split
  · exact OnQueryCompletedContext_frame _ _
  · exact ⟨rfl, rfl, rfl⟩

theorem transportStateChanged_frame (s : RemoteLibrary) (reason : ConnectionError)
    (newState oldState : State) :
    (s.transportStateChanged reason newState oldState).exit = s.exit ∧
    (s.transportStateChanged reason newState oldState).thread = s.thread ∧
    (s.transportStateChanged reason newState oldState).queryQueue = s.queryQueue := by
  unfold RemoteLibrary.transportStateChanged RemoteLibrary.OnClientStateChanged
  cases s.messageQueue <;> exact ⟨rfl, rfl, rfl⟩

theorem ProcessMessage_frame (s : RemoteLibrary) (message : Message) :
    (s.ProcessMessage message).exit = s.exit ∧
    (s.ProcessMessage message).thread = s.thread ∧
    (s.ProcessMessage message).queryQueue = s.queryQueue := by
  unfold RemoteLibrary.ProcessMessage
  cases message with
  | QueryCompleted target context => exact NotifyQueryCompleted_frame s context
  | ReconnectSocket target =>
    dsimp only
    split <;> exact ⟨rfl, rfl, rfl⟩
  | UpdateConnectionState target state => exact ⟨rfl, rfl, rfl⟩

theorem ThreadProc_of_exit (s : RemoteLibrary) (he : s.exit = true) : s.ThreadProc = s := by
  simp [RemoteLibrary.ThreadProc, he]

theorem ThreadProc_shutdownInvariant (closed : Bool) (s : RemoteLibrary)
    (h : s.shutdownInvariant closed) : s.ThreadProc.shutdownInvariant closed := by
  cases he : s.exit with
  | true => rw [ThreadProc_of_exit s he]; exact h
  | false =>
    have he' := (ThreadProc_order s he).1
    have ht : s.ThreadProc.thread = s.thread := by
      cases hq : s.queryQueue with
      | nil => rw [ThreadProc_nil s hq]
      | cons front rest =>
        rw [ThreadProc_cons s front rest he hq]
        exact (RunQuery_frame _ _).2.1
    unfold RemoteLibrary.shutdownInvariant at h ⊢
    rw [he', ht]
    rw [he] at h
    exact ⟨h.1, fun hf => absurd hf (by simp), h.2.2⟩

theorem Close_shutdownInvariant (closed : Bool) (s : RemoteLibrary)
    (h : s.shutdownInvariant false) : s.Close.shutdownInvariant closed := by
  unfold RemoteLibrary.shutdownInvariant at h ⊢
  unfold RemoteLibrary.Close
  cases ht : s.thread with
  | true => simp [ht]
  | false =>
    have he : s.exit = true := by simpa [ht] using h.1
    simp [ht, he, h.2.1 he]

theorem Close_preserves_shutdownInvariant (closed : Bool) (s : RemoteLibrary)
    (h : s.shutdownInvariant closed) : s.Close.shutdownInvariant closed :=
  Close_shutdownInvariant closed s ⟨h.1, h.2.1, fun hf => absurd hf (by simp)⟩

theorem Op_step_shutdownInvariant (closed : Bool) (o : Op) (s s' : RemoteLibrary)
    (hs : o.step s = some s') (h : s.shutdownInvariant closed) :
    s'.shutdownInvariant closed := by
  cases o with
  | ThreadProc =>
    simp only [Op.step, Option.some.injEq] at hs
    exact hs ▸ ThreadProc_shutdownInvariant closed s h
  | Close =>
    simp only [Op.step, Option.some.injEq] at hs
    exact hs ▸ Close_preserves_shutdownInvariant closed s h
  | OnClientQuerySucceeded messageId =>
    simp only [Op.step, Option.some.injEq, RemoteLibrary.OnClientQuerySucceeded] at hs
    obtain ⟨h1, h2, h3⟩ := OnQueryCompleted_frame s messageId
    exact hs ▸ shutdownInvariant_of_frame closed s _ h1 h2 h3 h
  | OnClientQueryFailed messageId =>
    simp only [Op.step, Option.some.injEq, RemoteLibrary.OnClientQueryFailed] at hs
    obtain ⟨h1, h2, h3⟩ := OnQueryCompleted_frame s messageId
    exact hs ▸ shutdownInvariant_of_frame closed s _ h1 h2 h3 h
  | OnClientStateChanged reason newState oldState =>
    simp only [Op.step, Option.some.injEq] at hs
    obtain ⟨h1, h2, h3⟩ := transportStateChanged_frame s reason newState oldState
    exact hs ▸ shutdownInvariant_of_frame closed s _ h1 h2 h3 h
  | OnClientInvalidPassword =>
    simp only [Op.step, RemoteLibrary.OnClientInvalidPassword] at hs
    cases hq : s.messageQueue with
    | none => simp [hq] at hs
    | some q =>
      simp only [hq, Option.some.injEq] at hs
      exact hs ▸ shutdownInvariant_of_frame closed s _ rfl rfl rfl h
  | ProcessMessage message =>
    simp only [Op.step, Option.some.injEq] at hs
    obtain ⟨h1, h2, h3⟩ := ProcessMessage_frame s message
    exact hs ▸ shutdownInvariant_of_frame closed s _ h1 h2 h3 h
  | SetMessageQueue queue =>
    simp only [Op.step, Option.some.injEq] at hs
    exact hs ▸ shutdownInvariant_of_frame closed s _ rfl rfl rfl h
  | SetStatus query status =>
    simp only [Op.step, Option.some.injEq] at hs
    exact hs ▸ shutdownInvariant_of_frame closed s _ rfl rfl rfl h

theorem Op_steps_shutdownInvariant (closed : Bool) (ops : List Op) (s s' : RemoteLibrary)
    (hs : Op.steps ops s = some s') (h : s.shutdownInvariant closed) :
    s'.shutdownInvariant closed := by
  induction ops generalizing s with
  | nil =>
    simp only [Op.steps, Option.some.injEq] at hs
    exact hs ▸ h
  | cons o rest ih =>
    simp only [Op.steps] at hs
    cases ho : o.step s with
    | none => simp [ho] at hs
    | some s1 =>
      simp only [ho] at hs
      exact ih s1 hs (Op_step_shutdownInvariant closed o s s1 ho h)

theorem syncWait_shutdownInvariant (closed : Bool) (query : Query)
    (others : List (RemoteLibrary → Option RemoteLibrary))
    (ho : ∀ f ∈ others, ∀ a b, f a = some b → a.shutdownInvariant closed →
      b.shutdownInvariant closed)
    (s s' : RemoteLibrary) (hs : RemoteLibrary.syncWait query others s = some s')
    (h : s.shutdownInvariant closed) : s'.shutdownInvariant closed := by
  induction others generalizing s with
  | nil =>
    simp only [RemoteLibrary.syncWait] at hs
    split at hs
    · exact absurd hs (by simp)
    · exact (Option.some.inj hs) ▸ h
  | cons f rest ih =>
    simp only [RemoteLibrary.syncWait] at hs
    split at hs
    · cases hf : f s with
      | none => simp [hf] at hs
      | some s1 =>
        simp only [hf] at hs
        exact ih (fun g hg => ho g (List.mem_cons_of_mem _ hg)) s1 hs
          (ho f (List.mem_cons_self _ _) s s1 hf h)
    · exact (Option.some.inj hs) ▸ h

theorem syncWait_of_exit (query : Query) (others : List (RemoteLibrary → Option RemoteLibrary))
    (s : RemoteLibrary) (he : s.exit = true) :
    RemoteLibrary.syncWait query others s = some s := by
  cases others <;> simp [RemoteLibrary.syncWait, he]

theorem syncWait_condition (query : Query)
    (others : List (RemoteLibrary → Option RemoteLibrary)) (s s' : RemoteLibrary)
    (hs : RemoteLibrary.syncWait query others s = some s') :
    (!s'.exit && s'.IsQueryInFlight query && !isQueryDone s' query) = false := by
  induction others generalizing s with
  | nil =>
    simp only [RemoteLibrary.syncWait] at hs
    split at hs
    · exact absurd hs (by simp)
    · rename_i hc
      exact (Option.some.inj hs) ▸ (by simpa using hc)
  | cons f rest ih =>
    simp only [RemoteLibrary.syncWait] at hs
    split at hs
    · cases hf : f s with
      | none => simp [hf] at hs
      | some s1 =>
        simp only [hf] at hs
        exact ih s1 hs
    · rename_i hc
      exact (Option.some.inj hs) ▸ (by simpa using hc)

theorem syncWait_of_not_in_flight (query : Query)
    (others : List (RemoteLibrary → Option RemoteLibrary)) (s : RemoteLibrary)
    (h : s.IsQueryInFlight query = false) : RemoteLibrary.syncWait query others s = some s := by
  cases others <;> simp [RemoteLibrary.syncWait, h]

theorem Enqueue_sync (x : Externals) (others : List (RemoteLibrary → Option RemoteLibrary))
    (s : RemoteLibrary) (query : Query) (options : Nat) (callback : Option Nat)
    (hl : x.IsLocalOnlyQuery query.name = false) (hs : query.serializable = true)
    (ho : options &&& x.QuerySynchronous ≠ 0) :
    s.Enqueue x others query options callback =
      (RemoteLibrary.syncWait query others
        (s.RunQuery { query := some query, callback := callback })).map
        (fun s' => (query.id, s')) := by
  simp [RemoteLibrary.Enqueue, hl, hs, ho]

theorem Enqueue_not_serializable (x : Externals)
    (others : List (RemoteLibrary → Option RemoteLibrary))
    (s : RemoteLibrary) (query : Query) (options : Nat) (callback : Option Nat)
    (hl : x.IsLocalOnlyQuery query.name = false) (hs : query.serializable = false) :
    s.Enqueue x others query options callback = some (-1, s) := by
  simp [RemoteLibrary.Enqueue, hl, hs]

theorem Enqueue_shutdownInvariant (closed : Bool) (x : Externals)
    (others : List (RemoteLibrary → Option RemoteLibrary))
    (ho : ∀ f ∈ others, ∀ a b, f a = some b → a.shutdownInvariant closed →
      b.shutdownInvariant closed)
    (s : RemoteLibrary) (query : Query) (options : Nat) (callback : Option Nat) (r : Int)
    (s' : RemoteLibrary) (hs : s.Enqueue x others query options callback = some (r, s'))
    (h : s.shutdownInvariant closed) : s'.shutdownInvariant closed := by
  cases hl : x.IsLocalOnlyQuery query.name with
  | true =>
    simp only [RemoteLibrary.Enqueue, hl, if_true, Option.some.injEq, Prod.mk.injEq] at hs
    exact hs.2 ▸ h
  | false =>
    cases hser : query.serializable with
    | false =>
      rw [Enqueue_not_serializable x others s query options callback hl hser] at hs
      exact (Prod.mk.inj (Option.some.inj hs)).2 ▸ h
    | true =>
      by_cases hopt : options &&& x.QuerySynchronous = 0
      · rw [Enqueue_async x others s query options callback hl hser hopt] at hs
        cases he : s.exit with
        | true =>
          simp only [he, if_true, Option.some.injEq, Prod.mk.injEq] at hs
          exact hs.2 ▸ h
        | false =>
          simp only [he, Bool.false_eq_true, if_false, Option.some.injEq, Prod.mk.injEq] at hs
          rw [← hs.2]
          unfold RemoteLibrary.shutdownInvariant at h ⊢
          rw [he] at h
          simp only [he]
          exact ⟨h.1, fun hf => absurd hf (by simp), h.2.2⟩
      · rw [Enqueue_sync x others s query options callback hl hser hopt] at hs
        cases hw : RemoteLibrary.syncWait query others
            (s.RunQuery { query := some query, callback := callback }) with
        | none => simp [hw] at hs
        | some s1 =>
          simp only [hw, Option.map_some', Option.some.injEq, Prod.mk.injEq] at hs
          obtain ⟨f1, f2, f3⟩ := RunQuery_frame s { query := some query, callback := callback }
          exact hs.2 ▸ syncWait_shutdownInvariant closed query others ho _ s1 hw
            (shutdownInvariant_of_frame closed s _ f1 f2 f3 h)

theorem run_shutdownInvariant (closed : Bool) (x : Externals) (calls : List Call)
    (s s' : RemoteLibrary) (hs : run x calls s = some s') (h : s.shutdownInvariant closed) :
    s'.shutdownInvariant closed := by
  induction calls generalizing s with
  | nil =>
    simp only [run, Option.some.injEq] at hs
    exact hs ▸ h
  | cons c rest ih =>
    simp only [run] at hs
    cases hc : c.step x s with
    | none => simp [hc] at hs
    | some s1 =>
      simp only [hc] at hs
      refine ih s1 hs ?_
      cases c with
      | op o => exact Op_step_shutdownInvariant closed o s s1 hc h
      | Enqueue query options callback others =>
        simp only [Call.step] at hc
        cases he : s.Enqueue x (others.map Op.steps) query options callback with
        | none => simp [he] at hc
        | some r =>
          simp only [he, Option.map_some', Option.some.injEq] at hc
          refine Enqueue_shutdownInvariant closed x (others.map Op.steps) ?_ s query options
            callback r.1 s1 (by rw [he, ← hc]) h
          intro f hf a b hab ha
          obtain ⟨ops, -, rfl⟩ := List.mem_map.1 hf
          exact Op_steps_shutdownInvariant closed ops a b hab ha

theorem Create_shutdownInvariant (self : Nat) (name : String) (id : Int) (wsc : WebSocketClient)
    (prefs : Preferences) :
    (RemoteLibrary.Create self name id wsc prefs).shutdownInvariant false := by
  simp [RemoteLibrary.shutdownInvariant, RemoteLibrary.Create,
    RemoteLibrary.ReloadConnectionFromPreferences]

/-- C3 fails as stated: on the example library after `Close()`, a synchronous
`Enqueue` of the serializable query with id 9 returns 9, not -1 (and the
transport has been handed the query). -/
theorem C3_counterexample :
    (exampleLibrary.Close.Enqueue exampleExternals [] (exampleQuery 9) 1 none).map
        (fun r => r.1) = some 9 ∧
    (exampleLibrary.Close.Enqueue exampleExternals [] (exampleQuery 9) 1 none).map
        (fun r => r.1) ≠ some (-1) ∧
    (exampleLibrary.Close.Enqueue exampleExternals [] (exampleQuery 9) 1 none).map
        (fun r => r.2.wsc.sent) = some [exampleQuery 9] := by
  decide

/-- C3 as amended: in every state reached from a new library by calls, then
`Close()`, then further calls, `exit` is set and the pending queue is empty;
`Enqueue` of a query that is not local-only then returns at once, whatever the
other threads do, leaving the pending queue empty: when the query is
serializable and the mode synchronous it still makes the hand-off (the library
afterwards is the one `RunQuery` leaves, so the transport has been handed the
query as one more request) and returns the request id; otherwise it returns -1
with the library unchanged. -/
theorem C3_Enqueue_after_Close (x : Externals) (self : Nat) (name : String) (id : Int)
    (wsc : WebSocketClient) (prefs : Preferences) (before after : List Call)
    (s1 s2 : RemoteLibrary)
    (h1 : run x before (RemoteLibrary.Create self name id wsc prefs) = some s1)
    (h2 : run x after s1.Close = some s2)
    (others : List (RemoteLibrary → Option RemoteLibrary)) (query : Query) (options : Nat)
    (callback : Option Nat) (hl : x.IsLocalOnlyQuery query.name = false) :
    s2.exit = true ∧ s2.queryQueue = [] ∧
    ∃ s3, s2.Enqueue x others query options callback =
        some (if query.serializable = true ∧ options &&& x.QuerySynchronous ≠ 0
          then query.id else -1, s3) ∧
      s3.exit = true ∧ s3.queryQueue = [] ∧
      (¬ (query.serializable = true ∧ options &&& x.QuerySynchronous ≠ 0) → s3 = s2) ∧
      (query.serializable = true ∧ options &&& x.QuerySynchronous ≠ 0 →
        s3 = s2.RunQuery { query := some query, callback := callback } ∧
        s3.wsc.sent = s2.wsc.sent ++ [query] ∧
        s3.wsc.messageIds = s2.wsc.messageIds.tail) := by
  have hi1 := run_shutdownInvariant false x before _ s1 h1
    (Create_shutdownInvariant self name id wsc prefs)
  have hi2 := run_shutdownInvariant true x after _ s2 h2 (Close_shutdownInvariant true s1 hi1)
  have he : s2.exit = true := hi2.2.2 rfl
  have hq : s2.queryQueue = [] := hi2.2.1 he
  refine ⟨he, hq, ?_⟩
  cases hser : query.serializable with
  | false =>
    exact ⟨s2, by simp [Enqueue_not_serializable x others s2 query options callback hl hser],
      he, hq, fun _ => rfl, fun hs => absurd hs.1 (by simp)⟩
  | true =>
    by_cases hopt : options &&& x.QuerySynchronous = 0
    · exact ⟨s2, by simp [Enqueue_async x others s2 query options callback hl hser hopt, he, hopt],
        he, hq, fun _ => rfl, fun hs => absurd hopt hs.2⟩
    · obtain ⟨f1, _, f3⟩ := RunQuery_frame s2 { query := some query, callback := callback }
      refine ⟨s2.RunQuery { query := some query, callback := callback }, ?_, by rw [f1, he],
        by rw [f3, hq], fun hn => absurd ⟨rfl, hopt⟩ hn,
        fun _ => ⟨rfl, by simp [RunQuery_sent], RunQuery_messageIds s2 query callback⟩⟩
      rw [Enqueue_sync x others s2 query options callback hl hser hopt,
        syncWait_of_exit query others _ (by rw [f1, he])]
      simp [hopt]

/-- C3 as amended, at the example library: one asynchronous enqueue, `Close()`,
a turn of the worker and one more enqueue, which is refused; a further
synchronous `Enqueue` of the query with id 9 hands the query to the transport
and leaves the pending queue empty. -/
theorem C3_Enqueue_after_Close_witness :
    ({ exampleLibrary with
        queryQueue := [{ query := some (exampleQuery 1), callback := none }] }).Close.exit = true ∧
    ({ exampleLibrary with
        queryQueue := [{ query := some (exampleQuery 1), callback := none }] }).Close.queryQueue
      = [] ∧
    ∃ s3, RemoteLibrary.Enqueue exampleExternals []
        ({ exampleLibrary with
          queryQueue := [{ query := some (exampleQuery 1), callback := none }] }).Close
        (exampleQuery 9) 1 none =
        some (if (exampleQuery 9).serializable = true ∧ 1 &&& exampleExternals.QuerySynchronous ≠ 0
          then (exampleQuery 9).id else -1, s3) ∧
      s3.exit = true ∧ s3.queryQueue = [] ∧
      (¬ ((exampleQuery 9).serializable = true ∧ 1 &&& exampleExternals.QuerySynchronous ≠ 0) →
        s3 = ({ exampleLibrary with
          queryQueue := [{ query := some (exampleQuery 1), callback := none }] }).Close) ∧
      ((exampleQuery 9).serializable = true ∧ 1 &&& exampleExternals.QuerySynchronous ≠ 0 →
        s3 = RemoteLibrary.RunQuery
          ({ exampleLibrary with
            queryQueue := [{ query := some (exampleQuery 1), callback := none }] }).Close
          { query := some (exampleQuery 9), callback := none } ∧
        s3.wsc.sent =
          ({ exampleLibrary with
            queryQueue := [{ query := some (exampleQuery 1), callback := none }] }).Close.wsc.sent
            ++ [exampleQuery 9] ∧
        s3.wsc.messageIds =
          ({ exampleLibrary with
            queryQueue :=
              [{ query := some (exampleQuery 1), callback := none }] }).Close.wsc.messageIds.tail) :=
  C3_Enqueue_after_Close exampleExternals 1 "remote" 7 exampleWsc examplePrefs
    [Call.Enqueue (exampleQuery 1) 0 none []]
    [Call.op Op.ThreadProc, Call.Enqueue (exampleQuery 2) 0 none []]
    { exampleLibrary with queryQueue := [{ query := some (exampleQuery 1), callback := none }] }
    ({ exampleLibrary with
      queryQueue := [{ query := some (exampleQuery 1), callback := none }] }).Close
    (by decide) (by decide) [] (exampleQuery 9) 1 none (by decide)

/-! ## Synchronous enqueue -/

theorem RunQuery_of_empty_token (s : RemoteLibrary) (query : Query) (callback : Option Nat)
    (h : (s.wsc.EnqueueQuery query).1 = "") :
    s.RunQuery { query := some query, callback := callback } =
      { s with wsc := (s.wsc.EnqueueQuery query).2 } := by
  simp [RemoteLibrary.RunQuery, RemoteLibrary.RunQueryOnWebSocketClient, h]

/-- C4 fails as stated: on the example library whose transport returns the
empty token, a synchronous `Enqueue` of the query with id 9 returns 9 at once
while the status of the query is `Idle` and `exit` is not set. -/
theorem C4_counterexample :
    (exampleOffline.wsc.EnqueueQuery (exampleQuery 9)).1 = "" ∧
    (exampleOffline.Enqueue exampleExternals [] (exampleQuery 9) 1 none).map
        (fun r => (r.1, r.2.GetStatus (exampleQuery 9), isQueryDone r.2 (exampleQuery 9),
          r.2.exit)) =
      some (9, Status.Idle, false, false) := by
  decide

/-- C4 as amended: for a synchronous `Enqueue` of a serializable query that is
not local-only, whatever the other threads do during the waits: when the call
returns, it returns the request id, and the status of the query is terminal,
or `exit` is set, or the query is not in the registry of queries in flight;
when the query is not in flight after the hand-off the call returns at once
with the library as the hand-off left it, and this is the case when the
transport returns the empty token for a query that was not in flight. -/
theorem C4_sync_Enqueue_returns_done_or_exit_or_not_in_flight (x : Externals)
    (others : List (RemoteLibrary → Option RemoteLibrary)) (s : RemoteLibrary) (query : Query)
    (options : Nat) (callback : Option Nat)
    (hl : x.IsLocalOnlyQuery query.name = false) (hs : query.serializable = true)
    (ho : options &&& x.QuerySynchronous ≠ 0) :
    (∀ r s', s.Enqueue x others query options callback = some (r, s') →
      r = query.id ∧
      (isQueryDone s' query = true ∨ s'.exit = true ∨ s'.IsQueryInFlight query = false)) ∧
    ((s.RunQuery { query := some query, callback := callback }).IsQueryInFlight query = false →
      s.Enqueue x others query options callback =
        some (query.id, s.RunQuery { query := some query, callback := callback })) ∧
    ((s.wsc.EnqueueQuery query).1 = "" → s.IsQueryInFlight query = false →
      s.Enqueue x others query options callback =
        some (query.id, { s with wsc := (s.wsc.EnqueueQuery query).2 })) := by
  refine ⟨?_, ?_, ?_⟩
  · intro r s' h
    rw [Enqueue_sync x others s query options callback hl hs ho] at h
    cases hw : RemoteLibrary.syncWait query others
        (s.RunQuery { query := some query, callback := callback }) with
    | none => simp [hw] at h
    | some s1 =>
      simp only [hw, Option.map_some', Option.some.injEq, Prod.mk.injEq] at h
      refine ⟨h.1.symm, ?_⟩
      have hc := syncWait_condition query others _ s1 hw
      rw [← h.2]
      cases hd : isQueryDone s1 query with
      | true => exact Or.inl rfl
      | false =>
        cases he : s1.exit with
        | true => exact Or.inr (Or.inl rfl)
        | false =>
          right; right
          simpa [hd, he] using hc
  · intro h
    rw [Enqueue_sync x others s query options callback hl hs ho,
      syncWait_of_not_in_flight query others _ h]
    rfl
  · intro ht hf
    rw [Enqueue_sync x others s query options callback hl hs ho,
      RunQuery_of_empty_token s query callback ht,
      syncWait_of_not_in_flight query others _ (by simpa [RemoteLibrary.IsQueryInFlight] using hf)]
    rfl

/-- C4 as amended, at the example library: the transport returns the token
`a1`, and during the wait the transport marks the query `Finished` and
completes `a1`; the call then returns the id 1 with the status terminal. On
the library whose transport returns the empty token the call returns at
once. -/
theorem C4_sync_Enqueue_returns_done_or_exit_or_not_in_flight_witness :
    ((1 : Int) = (exampleQuery 1).id ∧
      (isQueryDone
          (RemoteLibrary.OnClientQuerySucceeded
            { exampleLibrary.RunQuery { query := some (exampleQuery 1), callback := none } with
              status := [(1, Status.Finished)] } "a1") (exampleQuery 1) = true ∨
        (RemoteLibrary.OnClientQuerySucceeded
            { exampleLibrary.RunQuery { query := some (exampleQuery 1), callback := none } with
              status := [(1, Status.Finished)] } "a1").exit = true ∨
        (RemoteLibrary.OnClientQuerySucceeded
            { exampleLibrary.RunQuery { query := some (exampleQuery 1), callback := none } with
              status := [(1, Status.Finished)] } "a1").IsQueryInFlight (exampleQuery 1) = false)) ∧
    exampleOffline.Enqueue exampleExternals [] (exampleQuery 9) 1 none =
      some ((exampleQuery 9).id,
        { exampleOffline with wsc := (exampleOffline.wsc.EnqueueQuery (exampleQuery 9)).2 }) :=
  ⟨(C4_sync_Enqueue_returns_done_or_exit_or_not_in_flight exampleExternals
      [Op.steps [Op.SetStatus (exampleQuery 1) Status.Finished, Op.OnClientQuerySucceeded "a1"]]
      exampleLibrary (exampleQuery 1) 1 none (by decide) (by decide) (by decide)).1 1 _
      (by decide),
    (C4_sync_Enqueue_returns_done_or_exit_or_not_in_flight exampleExternals []
      exampleOffline (exampleQuery 9) 1 none (by decide) (by decide) (by decide)).2.2
      (by decide) (by decide)⟩

/-! ## The remote track locator -/

theorem toShort_of_short (p : Int) (h1 : -32768 ≤ p) (h2 : p ≤ 32767) : toShort p = p := by
  unfold toShort
  omega

theorem toShort_of_high (p : Int) (h1 : 32768 ≤ p) (h2 : p ≤ 65535) :
    toShort p = p - 65536 := by
  unfold toShort
  omega

theorem GetTrackUriPath_uri (prefs : Preferences) (track : ITrack) :
    (GetTrackUriPath prefs track).uri =
      "http://" ++ prefs.RemoteLibraryHostname.getD "127.0.0.1" ++ ":" ++
        toString (toShort (prefs.RemoteLibraryHttpPort.getD 7905)) ++ "/audio/id/" ++
        toString track.GetId := by
  rfl

/-- The URL is the one of the claim C9 for the data ports up to 32767. -/
theorem GetTrackUriPath_uri_of_low_port (prefs : Preferences) (track : ITrack) (h : String)
    (p : Int) (hh : prefs.RemoteLibraryHostname = some h)
    (hp : prefs.RemoteLibraryHttpPort = some p) (h1 : 1 ≤ p) (h2 : p ≤ 32767) :
    (GetTrackUriPath prefs track).uri =
      "http://" ++ h ++ ":" ++ toString p ++ "/audio/id/" ++ toString track.GetId := by
  rw [GetTrackUriPath_uri, hh, hp]
  simp only [Option.getD_some]
  rw [toShort_of_short p (by omega) h2]

/-- For the data ports from 32768 to 65535 the URL carries the negative number
`p - 65536`. -/
theorem GetTrackUriPath_uri_of_high_port (prefs : Preferences) (track : ITrack) (h : String)
    (p : Int) (hh : prefs.RemoteLibraryHostname = some h)
    (hp : prefs.RemoteLibraryHttpPort = some p) (h1 : 32768 ≤ p) (h2 : p ≤ 65535) :
    (GetTrackUriPath prefs track).uri =
      "http://" ++ h ++ ":" ++ toString (p - 65536) ++ "/audio/id/" ++ toString track.GetId := by
  rw [GetTrackUriPath_uri, hh, hp]
  simp only [Option.getD_some]
  rw [toShort_of_high p h1 h2]

/-- C9 breaks on the code: with host `10.0.0.5`, data port 40000 (a valid
port number) and track id 42, the URL built by `GetTrackUri` is
`http://10.0.0.5:-25536/audio/id/42`, not `http://10.0.0.5:40000/audio/id/42`,
because the port goes through `(short)`. -/
theorem C9_GetTrackUri_port_40000 :
    (GetTrackUriPath { examplePrefs with RemoteLibraryHttpPort := some 40000 }
        (exampleTrack "/music/a.flac")).uri = "http://10.0.0.5:-25536/audio/id/42" ∧
    (GetTrackUriPath { examplePrefs with RemoteLibraryHttpPort := some 40000 }
        (exampleTrack "/music/a.flac")).uri ≠
      "http://" ++ "10.0.0.5" ++ ":" ++ toString (40000 : Nat) ++ "/audio/id/" ++
        toString (42 : Int) := by
  decide

theorem find_last_of_eq_none (s : List Char) (c : Char) (h : c ∉ s) :
    find_last_of s c = none := by
  induction s with
  | nil => rfl
  | cons a rest ih =>
    have ha : a ≠ c := fun e => h (e ▸ List.mem_cons_self _ _)
    simp [find_last_of, ih (fun hm => h (List.mem_cons_of_mem _ hm)), ha]

theorem find_last_of_append (pre suf : List Char) (c : Char) (h : c ∉ suf) :
    find_last_of (pre ++ c :: suf) c = some pre.length := by
  induction pre with
  | nil => simp [find_last_of, find_last_of_eq_none suf c h]
  | cons a rest ih => simp [find_last_of, ih]

/-- C10 fails as stated: for the track URI `/music.dir/track`, whose last path
segment has no dot, the type is `.dir/track`, not `.mp3`. -/
theorem C10_counterexample :
    (GetTrackUriPath examplePrefs (exampleTrack "/music.dir/track")).originalUri =
      "/music.dir/track" ∧
    (GetTrackUriPath examplePrefs (exampleTrack "/music.dir/track")).type = ".dir/track" ∧
    (GetTrackUriPath examplePrefs (exampleTrack "/music.dir/track")).type ≠ ".mp3" := by
  decide

/-- C10 as amended: when `Uri` leaves the track URI `u` in the buffer
(returning a non-zero number unless `u` is empty), the type is `.mp3` when `u`
contains no dot (in particular when `u` is empty), and otherwise the suffix of
`u` that starts at its last dot, wherever in `u` that dot stands. -/
theorem C10_type_is_suffix_from_last_dot (prefs : Preferences) (track : ITrack) (size : Int)
    (u : String) (hu : track.Uri 4096 = (size, u)) (hsize : size ≠ 0 ∨ u = "") :
    ('.' ∉ u.toList → (GetTrackUriPath prefs track).type = ".mp3") ∧
    (∀ pre suf : List Char, u.toList = pre ++ '.' :: suf → '.' ∉ suf →
      (GetTrackUriPath prefs track).type = String.mk ('.' :: suf)) ∧
    (GetTrackUriPath prefs track).originalUri = u := by
  refine ⟨?_, ?_, ?_⟩
  · intro h
    simp only [GetTrackUriPath, hu, find_last_of_eq_none u.toList '.' h]
    split <;> rfl
  · intro pre suf hp hs
    have hne : u ≠ "" := by
      intro e
      rw [e] at hp
      simp at hp
    have hsz : size ≠ 0 := by
      rcases hsize with h | h
      · exact h
      · exact absurd h hne
    simp only [GetTrackUriPath, hu, hp, find_last_of_append pre suf '.' hs, substr]
    simp [hsz]
  · simp only [GetTrackUriPath, hu]

/-- C10 as amended, at three tracks: `/music/a.flac` gives `.flac`,
`/music/track` gives `.mp3`, and the empty URI gives `.mp3`. -/
theorem C10_type_is_suffix_from_last_dot_witness :
    (GetTrackUriPath examplePrefs (exampleTrack "/music/a.flac")).type =
      String.mk ('.' :: "flac".toList) ∧
    (GetTrackUriPath examplePrefs (exampleTrack "/music/track")).type = ".mp3" ∧
    (GetTrackUriPath examplePrefs (exampleTrack "")).type = ".mp3" :=
  ⟨(C10_type_is_suffix_from_last_dot examplePrefs (exampleTrack "/music/a.flac") 14
      "/music/a.flac" (by decide) (Or.inl (by decide))).2.1 "/music/a".toList "flac".toList
      (by decide) (by decide),
    (C10_type_is_suffix_from_last_dot examplePrefs (exampleTrack "/music/track") 13
      "/music/track" (by decide) (Or.inl (by decide))).1 (by decide),
    (C10_type_is_suffix_from_last_dot examplePrefs (exampleTrack "") 1
      "" (by decide) (Or.inr rfl)).1 (by decide)⟩

end Musik

